import Mathlib

/-!
# Motion monitor (`script.js`): frame comparison and the recording life cycle

A shallow embedding of `script.js`.

* Part 1 embeds `compareFrames`.  JavaScript numbers are modelled by exact
  rationals extended with `NaN` and `+Infinity` (`JsNum`); the rounding of
  IEEE doubles is not modelled.  The verdicts evaluated on concrete frames
  below (`2.04 > 2`, `1000 > 2`, `0 > 2`) are far from any rounding boundary.
* Part 2 embeds the global variables of the script as a record `State` and
  the functions `startRecording`, `stopRecording`, `detectMotion`,
  `uploadRecording` and the `MediaRecorder` handlers as state transformers.
  What the script asks of the browser is recorded in the state: the timers
  armed, the recorders created, the stop requests issued to them, the uploads
  handed to `fetch`.  What the browser does in return (a timer firing, a
  recorder delivering data or its `stop` event, `fetch` settling, an
  animation frame) reaches the script as an `Event`.  A run is `deliverable`
  when each of its events is one the browser can deliver in the state reached
  (a one-shot timer fires only while armed).  Browser calls are taken to
  succeed; how a recorder reacts to a stop request is not modelled.
-/

namespace Monitor

/-! ## Part 1: frames and `compareFrames` -/

/-- An `ImageData` object: `data` is the RGBA byte buffer (a
`Uint8ClampedArray`, entries `0..255`, of length `4 * width * height`). -/
structure Frame where
  width : Nat
  height : Nat
  data : List Nat
  deriving DecidableEq, Repr

/-- The invariants the browser guarantees for every `ImageData`. -/
def Frame.WellFormed (f : Frame) : Prop :=
  0 < f.width ∧ 0 < f.height ∧ f.data.length = 4 * f.width * f.height ∧
    ∀ b ∈ f.data, b ≤ 255

instance (f : Frame) : Decidable f.WellFormed := by
  unfold Frame.WellFormed; infer_instance

/-- The constant `MOTION_THRESHOLD = 30`. -/
def MOTION_THRESHOLD : Nat := 30

/-- The constant `RECORDING_DURATION = 5 * 60 * 1000` (milliseconds). -/
def RECORDING_DURATION : Nat := 5 * 60 * 1000

/-- The test `Math.abs(data1[i] - data2[i]) > MOTION_THRESHOLD` of the loop
body.  Reading a typed array past its end gives `undefined`; the difference is
then `NaN` and the comparison is false. -/
def exceedsThreshold (a b : Option Nat) : Bool :=
  match a, b with
  | some x, some y => decide (MOTION_THRESHOLD < Int.natAbs ((x : Int) - (y : Int)))
  | _, _ => false

/-- The loop `for (let i = 0; i < data1.length; i += 40)` of `compareFrames`,
started at index `i` with `diffCount = acc`; `fuel` bounds the number of
iterations. -/
def countLoop (d1 d2 : List Nat) : Nat → Nat → Nat → Nat
  | 0, _, acc => acc
  | fuel + 1, i, acc =>
    if i < d1.length then
      countLoop d1 d2 fuel (i + 40)
        (if exceedsThreshold d1[i]? d2[i]? then acc + 1 else acc)
    else acc

/-- The value of `diffCount` when the loop of `compareFrames` exits.  The loop
runs at most `data1.length` times, so that much fuel is never used up (see
`countLoop_fuel`). -/
def diffCount (frame1 frame2 : Frame) : Nat :=
  countLoop frame1.data frame2.data frame1.data.length 0 0

/-- A JavaScript number as far as `compareFrames` can produce one: an exact
rational, `+Infinity`, or `NaN`. -/
inductive JsNum where
  | num (q : ℚ)
  | posInf
  | nan
  deriving DecidableEq

/-- The quotient `a / b` of two non-negative finite numbers: `0 / 0` is `NaN`,
`a / 0` is `+Infinity` for `a > 0`. -/
def JsNum.divNonneg (a b : ℚ) : JsNum :=
  if b = 0 then (if a = 0 then .nan else .posInf) else .num (a / b)

/-- The product `x * c` for a positive finite constant `c`. -/
def JsNum.mulPos (x : JsNum) (c : ℚ) : JsNum :=
  match x with
  | .num q => .num (q * c)
  | .posInf => .posInf
  | .nan => .nan

/-- The comparison `x > c`; false on `NaN`. -/
def JsNum.gt (x : JsNum) (c : ℚ) : Bool :=
  match x with
  | .num q => decide (c < q)
  | .posInf => true
  | .nan => false

/-- The constant `totalSampled = data1.length / 40` (a real-number division:
it is not an integer unless the length is a multiple of 40). -/
def totalSampled (frame1 : Frame) : ℚ := (frame1.data.length : ℚ) / 40

/-- The sub-expression `diffCount / totalSampled` of `compareFrames`: the
changed ratio the code computes. -/
def changedRatio (frame1 frame2 : Frame) : JsNum :=
  JsNum.divNonneg (diffCount frame1 frame2) (totalSampled frame1)

/-- The constant `motionPercentage = (diffCount / totalSampled) * 100`. -/
def motionPercentage (frame1 frame2 : Frame) : JsNum :=
  (changedRatio frame1 frame2).mulPos 100

/-- The function `compareFrames(frame1, frame2)`: `motionPercentage > 2`. -/
def compareFrames (frame1 frame2 : Frame) : Bool :=
  (motionPercentage frame1 frame2).gt 2

/-- The byte indices the loop visits: `0, 40, 80, ...` below `len`. -/
def sampledIndices (len : Nat) : List Nat :=
  List.range' 0 ((len + 39) / 40) 40

/-- The number of sampled positions of a frame. -/
def sampleCount (f : Frame) : Nat := (sampledIndices f.data.length).length

/-- The frame of end-to-end scenario 2: every sampled byte of `f` is replaced
by `min (byte + 100) 255`, every other byte is kept. -/
def whiteShift (f : Frame) : Frame :=
  { f with
    data := List.map (fun p => if p.1 % 40 = 0 then min (p.2 + 100) 255 else p.2)
      (List.enum f.data) }

/-- The test of the loop body at byte index `i`. -/
def differsAt (d1 d2 : List Nat) (i : Nat) : Bool :=
  exceedsThreshold d1[i]? d2[i]?

/-- Whether the byte at index `i` is at most 224, the bytes for which
`min (byte + 100) 255 - byte` exceeds `MOTION_THRESHOLD`. -/
def shiftableAt (d : List Nat) (i : Nat) : Bool :=
  match d[i]? with
  | some b => decide (b ≤ 224)
  | none => false

/-- The number of sampled positions of a frame whose byte is at most 224. -/
def shiftableCount (f : Frame) : Nat :=
  List.countP (shiftableAt f.data) (sampledIndices f.data.length)

/-! ### Concrete frames -/

/-- A run of `n` zero bytes. -/
def blackBytes (n : Nat) : List Nat := List.replicate n 0

/-- A 491 x 1 frame, all bytes 0 except byte 0, which is 255. -/
def frameOneLit : Frame := ⟨491, 1, 255 :: blackBytes 1963⟩

/-- A 491 x 1 frame, all bytes 0. -/
def frameDark : Frame := ⟨491, 1, blackBytes 1964⟩

/-- A 1 x 1 frame whose red byte is 100. -/
def pixelRed : Frame := ⟨1, 1, [100, 0, 0, 255]⟩

/-- A 1 x 1 black frame. -/
def pixelBlack : Frame := ⟨1, 1, [0, 0, 0, 255]⟩

/-- A 20 x 1 frame with two sampled bytes: byte 0 is 255, byte 40 is 0. -/
def frameHalfWhite : Frame := ⟨20, 1, 255 :: blackBytes 79⟩

/-- A 1 x 1 white frame. -/
def pixelWhite : Frame := ⟨1, 1, [255, 255, 255, 255]⟩

/-! ## Part 2: the global state and the recording life cycle -/

/-- A `Blob` delivered by the encoder, as its bytes; `size` is the length. -/
abbrev Chunk := List Nat

/-- The two kinds of timer the script arms. -/
inductive TimerKind where
  | interval
  | timeout
  deriving DecidableEq, Repr

/-- A timer armed in the browser: the id returned by `setInterval` or
`setTimeout`, its kind and its delay in milliseconds. -/
structure Timer where
  id : Nat
  kind : TimerKind
  delay : Nat
  deriving DecidableEq, Repr

/-- A request handed to `fetch` by `uploadRecording`: the target address, the
file name of the form entry and the parts the `Blob` was built from. -/
structure Upload where
  url : String
  name : String
  parts : List Chunk
  deriving DecidableEq, Repr

/-- How the `fetch` of `uploadRecording` settles. -/
inductive FetchOutcome where
  | ok
  | notOk
  | failed (message : String)
  deriving DecidableEq, Repr

/-- The global variables of `script.js`, the two DOM values it reads and
writes, and a record of what it asked of the browser.

* `mediaRecorder` is the identity of the recorder object the variable refers
  to (`none` for `undefined`); recorders are numbered in order of creation.
* `timers` are the timers currently armed; `stopRequests` lists the recorders
  on which `stop()` was called, in call order; `uploads` lists the requests
  handed to `fetch`.
* `compareCalls` and `overlayCalls` count the calls of `compareFrames` and
  `detectAndDrawObjects`; `uncaught` counts callbacks ended by an exception. -/
structure State where
  isMonitoring : Bool
  isRecording : Bool
  mediaRecorder : Option Nat
  recordedChunks : List Chunk
  lastFrame : Option Frame
  recordingStartTime : Option Nat
  recordingInterval : Option Nat
  serverUrl : String
  statusText : String
  statusRecording : Bool
  timers : List Timer
  nextTimerId : Nat
  recordersCreated : Nat
  stopRequests : List Nat
  uploads : List Upload
  compareCalls : Nat
  overlayCalls : Nat
  uncaught : Nat
  deriving DecidableEq, Repr

/-- The state when the script has been loaded: the declared initial values. -/
def State.initial (serverUrl : String) : State :=
  { isMonitoring := false, isRecording := false, mediaRecorder := none,
    recordedChunks := [], lastFrame := none, recordingStartTime := none,
    recordingInterval := none, serverUrl := serverUrl, statusText := "",
    statusRecording := false, timers := [], nextTimerId := 0,
    recordersCreated := 0, stopRequests := [], uploads := [],
    compareCalls := 0, overlayCalls := 0, uncaught := 0 }

/-- The function `updateStatus(text, isRecordingState = false)`. -/
def updateStatus (s : State) (text : String) (isRecordingState : Bool) : State :=
  { s with statusText := text, statusRecording := isRecordingState }

/-- The state in which `startMonitoring` leaves the script when the camera and
the model are available, just before its call of `detectMotion`. -/
def State.monitoring (serverUrl : String) : State :=
  { updateStatus (State.initial serverUrl) "Monitoring for motion..." false with
    isMonitoring := true }

/-- The calls `clearInterval(id)`: the timer with that id, if any, is
disarmed; `clearInterval(undefined)` does nothing. -/
def clearTimer (id : Option Nat) (timers : List Timer) : List Timer :=
  match id with
  | none => timers
  | some i => timers.filter (fun t => decide (t.id ≠ i))

/-- The function `startRecording()`; `now` is the value of `Date.now()`.
The new recorder gets the next recorder number, the interval and the one-shot
timer the next two timer ids; the id of the one-shot timer is not stored. -/
def startRecording (s : State) (now : Nat) : State :=
  let s1 := { s with isRecording := true, recordedChunks := [],
                     recordingStartTime := some now }
  let s2 := updateStatus s1 "🔴 RECORDING!" true
  let s3 := { s2 with mediaRecorder := some s2.recordersCreated,
                      recordersCreated := s2.recordersCreated + 1 }
  let s4 := { s3 with recordingInterval := some s3.nextTimerId,
                      timers := s3.timers ++ [Timer.mk s3.nextTimerId .interval 1000],
                      nextTimerId := s3.nextTimerId + 1 }
  { s4 with timers := s4.timers ++ [Timer.mk s4.nextTimerId .timeout RECORDING_DURATION],
            nextTimerId := s4.nextTimerId + 1 }

/-- The function `stopRecording()`.  The call `mediaRecorder.stop()` is
recorded as a stop request to the current recorder; with `mediaRecorder`
undefined the call throws and the function ends there. -/
def stopRecording (s : State) : State :=
  let s1 := { s with isRecording := false,
                     timers := clearTimer s.recordingInterval s.timers }
  match s1.mediaRecorder with
  | none => { s1 with uncaught := s1.uncaught + 1 }
  | some r =>
    updateStatus { s1 with stopRequests := s1.stopRequests ++ [r] } "Uploading video..." false

/-- The handler `mediaRecorder.ondataavailable`, for `event.data = data`. -/
def ondataavailable (s : State) (data : Chunk) : State :=
  if 0 < data.length then { s with recordedChunks := s.recordedChunks ++ [data] } else s

/-- The expression `timestamp.replace(/:/g, '-')`. -/
def replaceColons (timestamp : String) : String :=
  String.mk (timestamp.data.map (fun c => if c = ':' then '-' else c))

/-- The file name built by `uploadRecording` from the ISO timestamp. -/
def uploadName (isoTime : String) : String :=
  "recording_" ++ replaceColons isoTime ++ ".webm"

/-- The function `uploadRecording()` up to its call of `fetch`; `isoTime` is
the value of `new Date().toISOString()`. -/
def uploadRecording (s : State) (isoTime : String) : State :=
  { s with uploads := s.uploads ++
      [⟨"http://" ++ s.serverUrl ++ "/upload", uploadName isoTime, s.recordedChunks⟩] }

/-- The rest of `uploadRecording()`, run when `fetch` settles. -/
def uploadSettled (s : State) (outcome : FetchOutcome) : State :=
  match outcome with
  | .ok => updateStatus s "✅ Video uploaded! Monitoring resumed..." false
  | .notOk => updateStatus s "❌ Upload failed. Monitoring resumed..." false
  | .failed message => updateStatus s ("❌ Cannot reach PC: " ++ message) false

/-- The function `detectMotion()`; `currentFrame` is the frame read from the
canvas and `now` the value `Date.now()` has if `startRecording` is reached.
The closing `requestAnimationFrame(detectMotion)` asks for the next
`Event.frameTick`. -/
def detectMotion (s : State) (currentFrame : Frame) (now : Nat) : State :=
  if !s.isMonitoring then s
  else
    let s1 :=
      match s.lastFrame with
      | some lastFrame =>
        if !s.isRecording then
          let s' := { s with compareCalls := s.compareCalls + 1 }
          if compareFrames currentFrame lastFrame then startRecording s' now else s'
        else s
      | none => s
    let s2 := if s1.isRecording then { s1 with overlayCalls := s1.overlayCalls + 1 } else s1
    { s2 with lastFrame := some currentFrame }

/-- What the browser can deliver to the script once monitoring has started.
The ticks of the 1-second interval run `updateRecordingTime`, which only
rewrites the elapsed-time text of the page and touches no variable of the
script; they are left out. -/
inductive Event where
  | frameTick (currentFrame : Frame) (now : Nat)
  | dataAvailable (data : Chunk)
  | recorderStopped (isoTime : String)
  | timeoutFired (id : Nat)
  | fetchSettled (outcome : FetchOutcome)
  deriving DecidableEq, Repr

/-- One callback of the script.  The one-shot timer is disarmed by firing;
its callback is `() => { stopRecording(); }`.  A recorder's `stop` event runs
`uploadRecording`. -/
def step (s : State) : Event → State
  | .frameTick currentFrame now => detectMotion s currentFrame now
  | .dataAvailable data => ondataavailable s data
  | .recorderStopped isoTime => uploadRecording s isoTime
  | .timeoutFired id => stopRecording { s with timers := clearTimer (some id) s.timers }
  | .fetchSettled outcome => uploadSettled s outcome

/-- A sequence of callbacks, in the order they run. -/
def run (s : State) (events : List Event) : State := events.foldl step s

/-- Whether the browser can deliver the event in state `s`: an animation frame
only while monitoring, a recorder event only once a recorder exists, the firing
of a one-shot timer only while a one-shot timer with that id is armed, the
settling of a `fetch` only after an upload. -/
def Event.enabled (s : State) : Event → Bool
  | .frameTick _ _ => s.isMonitoring
  | .dataAvailable _ => decide (0 < s.recordersCreated)
  | .recorderStopped _ => decide (0 < s.recordersCreated)
  | .timeoutFired id => s.timers.any (fun t => decide (t.id = id ∧ t.kind = .timeout))
  | .fetchSettled _ => decide (0 < s.uploads.length)

/-- Whether the browser can deliver the events, in this order, from `s`. -/
def deliverable (s : State) : List Event → Bool
  | [] => true
  | e :: es => Event.enabled s e && deliverable (step s e) es

/-- The invariant of the recording life cycle: recorders are asked to stop in
the order of their creation, each once; while recording, the current recorder
is the one not yet asked to stop and exactly the two timers of
`startRecording` are armed; while not recording no timer is armed. -/
def SessionInv (s : State) : Prop :=
  s.stopRequests = List.range s.stopRequests.length ∧
  (s.isRecording = true →
    s.recordersCreated = s.stopRequests.length + 1 ∧
    s.mediaRecorder = some s.stopRequests.length ∧
    ∃ iv tm, iv ≠ tm ∧ s.recordingInterval = some iv ∧
      s.timers = [Timer.mk iv .interval 1000, Timer.mk tm .timeout RECORDING_DURATION]) ∧
  (s.isRecording = false → s.recordersCreated = s.stopRequests.length ∧ s.timers = [])

/-! ### Concrete runs -/

/-- The start of a recording session: the first tick stores a black frame,
the second sees motion and starts recording 0 (interval with timer id 0,
one-shot timer with id 1), then the encoder emits `[1, 2]`. -/
def sessionRun : List Event :=
  [.frameTick pixelBlack 0, .frameTick pixelRed 16, .dataAvailable [1, 2]]

/-- The state reached by `sessionRun`: recording 0 is active, `lastFrame` is
`pixelRed` and the accumulator holds `[1, 2]`. -/
def sessionState : State := run (State.monitoring "pc:8000") sessionRun

/-- A run in which motion is seen again after `stopRecording` and before the
recorder's `stop` event: two ticks start recording 0, the encoder emits
`[1, 2]`, the one-shot timer (id 1) fires, the next tick starts recording 1,
then recorder 0 delivers its last segment `[3]` and its `stop` event.
Recording 1 then ends in the same way: its one-shot timer (id 3) fires,
recorder 1 delivers `[4]` and its `stop` event. -/
def restartRun : List Event :=
  [.frameTick pixelBlack 0, .frameTick pixelRed 16, .dataAvailable [1, 2],
    .timeoutFired 1, .frameTick pixelBlack 300032, .dataAvailable [3],
    .recorderStopped "2024-05-01T10:05:00.000Z",
    .timeoutFired 3, .dataAvailable [4],
    .recorderStopped "2024-05-01T10:10:00.032Z"]

/-- The state after `stopRecording` and before the recorder's `stop` event:
two ticks start recording 0, the encoder emits `[7, 7, 7]`, and the one-shot
timer fires. -/
def uploadingState : State :=
  run (State.monitoring "pc:8000")
    [.frameTick pixelBlack 0, .frameTick pixelRed 16, .dataAvailable [7, 7, 7],
      .timeoutFired 1]

/-! ### The loop of `compareFrames` -/

theorem countLoop_eq (d1 d2 : List Nat) (fuel i acc : Nat)
    (hfuel : (d1.length - i + 39) / 40 ≤ fuel) :
    countLoop d1 d2 fuel i acc =
      acc + List.countP (differsAt d1 d2)
        (List.range' i ((d1.length - i + 39) / 40) 40) := by
  induction fuel generalizing i acc with
  | zero =>
    have h0 : (d1.length - i + 39) / 40 = 0 := by omega
    simp [countLoop, h0]
  | succ n ih =>
    unfold countLoop
    split_ifs with hlt hex
    · have hn : (d1.length - i + 39) / 40 = (d1.length - (i + 40) + 39) / 40 + 1 := by
        omega
      rw [ih (i + 40) (acc + 1) (by omega), hn, List.range'_succ, List.countP_cons]
      have : differsAt d1 d2 i = true := hex
      simp [this]; omega
    · have hn : (d1.length - i + 39) / 40 = (d1.length - (i + 40) + 39) / 40 + 1 := by
        omega
      rw [ih (i + 40) acc (by omega), hn, List.range'_succ, List.countP_cons]
      have : differsAt d1 d2 i = false := by simpa [differsAt] using hex
      simp [this]
    · have h0 : (d1.length - i + 39) / 40 = 0 := by omega
      simp [h0]

/-- The fuel given to the loop in `diffCount` is never used up: any larger
amount of fuel gives the same count. -/
theorem countLoop_fuel (d1 d2 : List Nat) (fuel : Nat) (h : d1.length ≤ fuel) :
    countLoop d1 d2 fuel 0 0 = countLoop d1 d2 d1.length 0 0 := by
  rw [countLoop_eq d1 d2 fuel 0 0 (by omega),
    countLoop_eq d1 d2 d1.length 0 0 (by omega)]

theorem diffCount_eq_countP (f1 f2 : Frame) :
    diffCount f1 f2 =
      List.countP (differsAt f1.data f2.data) (sampledIndices f1.data.length) := by
  unfold diffCount sampledIndices
  rw [countLoop_eq f1.data f2.data f1.data.length 0 0 (by omega)]
  simp

theorem length_sampledIndices (len : Nat) :
    (sampledIndices len).length = (len + 39) / 40 := by
  simp [sampledIndices]

theorem mem_sampledIndices {len i : Nat} :
    i ∈ sampledIndices len ↔ i < len ∧ i % 40 = 0 := by
  unfold sampledIndices
  rw [List.mem_range']
  constructor
  · rintro ⟨k, hk, rfl⟩
    constructor <;> omega
  · rintro ⟨h1, h2⟩
    exact ⟨i / 40, by omega, by omega⟩

theorem diffCount_le_sampleCount (f1 f2 : Frame) :
    diffCount f1 f2 ≤ sampleCount f1 := by
  rw [diffCount_eq_countP]
  exact List.countP_le_length _

theorem diffCount_eq_zero_of_empty (f1 f2 : Frame) (h : f1.data.length = 0) :
    diffCount f1 f2 = 0 := by
  have := diffCount_le_sampleCount f1 f2
  simp [sampleCount, length_sampledIndices, h] at this
  exact this

/-- The verdict of `compareFrames` in integer arithmetic:
`(diffCount / (length / 40)) * 100 > 2` exactly when
`2 * length < 4000 * diffCount`. -/
theorem compareFrames_iff (f1 f2 : Frame) :
    compareFrames f1 f2 = true ↔ 2 * f1.data.length < 4000 * diffCount f1 f2 := by
  rcases Nat.eq_zero_or_pos f1.data.length with h0 | hpos
  · have hd := diffCount_eq_zero_of_empty f1 f2 h0
    simp [compareFrames, motionPercentage, changedRatio, totalSampled, JsNum.divNonneg,
      JsNum.mulPos, JsNum.gt, h0, hd]
  · have hq : (0 : ℚ) < (f1.data.length : ℚ) := by exact_mod_cast hpos
    have hne : (f1.data.length : ℚ) / 40 ≠ 0 := by positivity
    simp only [compareFrames, motionPercentage, changedRatio, totalSampled, JsNum.divNonneg,
      JsNum.mulPos, JsNum.gt, hne, if_false, decide_eq_true_eq]
    rw [div_div_eq_mul_div, div_mul_eq_mul_div, lt_div_iff₀ hq]
    constructor
    · intro h
      have : ((2 * f1.data.length : ℕ) : ℚ) < ((4000 * diffCount f1 f2 : ℕ) : ℚ) := by
        push_cast; linarith
      exact_mod_cast this
    · intro h
      have : ((2 * f1.data.length : ℕ) : ℚ) < ((4000 * diffCount f1 f2 : ℕ) : ℚ) := by
        exact_mod_cast h
      push_cast at this; linarith

theorem compareFrames_eq_false_iff (f1 f2 : Frame) :
    compareFrames f1 f2 = false ↔ 4000 * diffCount f1 f2 ≤ 2 * f1.data.length := by
  rw [← Bool.not_eq_true, compareFrames_iff]; omega

/-- The changed ratio the code computes, for a non-empty buffer. -/
theorem changedRatio_of_pos (f1 f2 : Frame) (hpos : 0 < f1.data.length) :
    changedRatio f1 f2 =
      .num ((diffCount f1 f2 : ℚ) / ((f1.data.length : ℚ) / 40)) := by
  have hq : (0 : ℚ) < (f1.data.length : ℚ) := by exact_mod_cast hpos
  have hne : (f1.data.length : ℚ) / 40 ≠ 0 := by positivity
  simp [changedRatio, totalSampled, JsNum.divNonneg, hne]

theorem differsAt_self (d : List Nat) (i : Nat) : differsAt d d i = false := by
  unfold differsAt exceedsThreshold
  cases d[i]? <;> simp [MOTION_THRESHOLD]

theorem diffCount_self (f : Frame) : diffCount f f = 0 := by
  rw [diffCount_eq_countP, List.countP_eq_zero]
  intro i _
  simp [differsAt_self]

/-- When every sampled position differs, `diffCount` is the number of sampled
positions. -/
theorem diffCount_of_all_differ (f1 f2 : Frame)
    (h : ∀ i ∈ sampledIndices f1.data.length, differsAt f1.data f2.data i = true) :
    diffCount f1 f2 = sampleCount f1 := by
  rw [diffCount_eq_countP, sampleCount, List.countP_eq_length]
  exact h

theorem length_blackBytes (n : Nat) : (blackBytes n).length = n := by
  simp [blackBytes]

theorem getElem?_blackBytes (n i : Nat) :
    (blackBytes n)[i]? = if i < n then some 0 else none := by
  simp [blackBytes, List.getElem?_replicate]

theorem mem_blackBytes {n b : Nat} (h : b ∈ blackBytes n) : b = 0 := by
  simp [blackBytes] at h; exact h.2

theorem frameOneLit_wellFormed : frameOneLit.WellFormed := by
  refine ⟨by decide, by decide, by simp [frameOneLit, length_blackBytes], ?_⟩
  intro b hb
  simp only [frameOneLit, List.mem_cons] at hb
  rcases hb with rfl | hb
  · decide
  · rw [mem_blackBytes hb]; decide

theorem frameDark_wellFormed : frameDark.WellFormed := by
  refine ⟨by decide, by decide, by simp [frameDark, length_blackBytes], ?_⟩
  intro b hb
  rw [mem_blackBytes hb]; decide

theorem diffCount_frameOneLit : diffCount frameOneLit frameDark = 1 := by
  rw [diffCount_eq_countP]
  have hs : sampledIndices frameOneLit.data.length = 0 :: List.range' 40 49 40 := by
    simp [sampledIndices, frameOneLit, length_blackBytes, List.range'_succ]
  rw [hs, List.countP_cons]
  have h0 : differsAt frameOneLit.data frameDark.data 0 = true := by
    simp [differsAt, frameOneLit, frameDark, exceedsThreshold, MOTION_THRESHOLD,
      getElem?_blackBytes]
  have ht : List.countP (differsAt frameOneLit.data frameDark.data)
      (List.range' 40 49 40) = 0 := by
    rw [List.countP_eq_zero]
    intro i hi
    rw [List.mem_range'] at hi
    obtain ⟨k, hk, rfl⟩ := hi
    have h1 : 40 + 40 * k < 1964 := by omega
    have h2 : 39 + 40 * k < 1963 := by omega
    simp [differsAt, frameOneLit, frameDark, exceedsThreshold, MOTION_THRESHOLD,
      getElem?_blackBytes, h1, h2, List.getElem?_cons]
  simp [h0, ht]

theorem sampleCount_frameOneLit : sampleCount frameOneLit = 50 := by
  simp [sampleCount, length_sampledIndices, frameOneLit, length_blackBytes]

/-! ### Claims about `compareFrames` -/

/-- For buffers whose length is a multiple of 40 the divisor `length / 40` is
the number of sampled positions, and a changed ratio of at most 2% gives the
verdict `false`. -/
theorem compareFrames_false_of_aligned (f1 f2 : Frame)
    (h40 : f1.data.length % 40 = 0)
    (hr : (diffCount f1 f2 : ℚ) / (sampleCount f1 : ℚ) ≤ 2 / 100) :
    compareFrames f1 f2 = false := by
  rw [compareFrames_eq_false_iff]
  have hs : sampleCount f1 = (f1.data.length + 39) / 40 := length_sampledIndices _
  rcases Nat.eq_zero_or_pos (sampleCount f1) with h0 | hpos
  · have := diffCount_le_sampleCount f1 f2
    omega
  · have hq : (0 : ℚ) < (sampleCount f1 : ℚ) := by exact_mod_cast hpos
    rw [div_le_iff₀ hq] at hr
    have h50 : ((50 * diffCount f1 f2 : ℕ) : ℚ) ≤ ((sampleCount f1 : ℕ) : ℚ) := by
      push_cast; linarith
    have h50n : 50 * diffCount f1 f2 ≤ sampleCount f1 := by exact_mod_cast h50
    omega

/-- C1: on the 491 x 1 frames `frameOneLit` and `frameDark` (1964 bytes each)
one of the 50 sampled positions differs by more than 30, so the changed ratio
over the sampled positions is exactly 2%, yet `compareFrames` returns `true`:
the code divides by `length / 40 = 49.1`, not by the 50 sampled positions. -/
theorem compareFrames_true_at_two_percent :
    frameOneLit.WellFormed ∧ frameDark.WellFormed ∧
      frameOneLit.data.length = frameDark.data.length ∧
      diffCount frameOneLit frameDark = 1 ∧ sampleCount frameOneLit = 50 ∧
      (diffCount frameOneLit frameDark : ℚ) / (sampleCount frameOneLit : ℚ) ≤ 2 / 100 ∧
      compareFrames frameOneLit frameDark = true := by
  refine ⟨frameOneLit_wellFormed, frameDark_wellFormed, ?_, diffCount_frameOneLit,
    sampleCount_frameOneLit, ?_, ?_⟩
  · simp [frameOneLit, frameDark, length_blackBytes]
  · rw [diffCount_frameOneLit, sampleCount_frameOneLit]; norm_num
  · rw [compareFrames_iff, diffCount_frameOneLit]
    simp [frameOneLit, length_blackBytes]

/-- C2: comparing a frame with itself counts no sampled position as changed,
returns `false`, and (for a non-empty buffer, as every `ImageData` has) the
changed ratio computed is 0. -/
theorem compareFrames_self (f : Frame) :
    compareFrames f f = false ∧ diffCount f f = 0 ∧
      (f.data ≠ [] → changedRatio f f = .num 0) := by
  refine ⟨?_, diffCount_self f, ?_⟩
  · rw [compareFrames_eq_false_iff, diffCount_self]; omega
  · intro hne
    have hpos : 0 < f.data.length := List.length_pos.mpr hne
    rw [changedRatio_of_pos f f hpos, diffCount_self]
    simp

theorem compareFrames_self_witness :
    compareFrames pixelBlack pixelBlack = false ∧ diffCount pixelBlack pixelBlack = 0 ∧
      changedRatio pixelBlack pixelBlack = .num 0 :=
  ⟨(compareFrames_self pixelBlack).1, (compareFrames_self pixelBlack).2.1,
    (compareFrames_self pixelBlack).2.2 (by decide)⟩

/-- When every sampled byte differs by more than 30 and the buffer is not
empty, `compareFrames` returns `true`; the ratio it computes is
`sampleCount / (length / 40)`, which is 1 when the length is a multiple
of 40. -/
theorem compareFrames_of_all_differ (f1 f2 : Frame) (hne : f1.data ≠ [])
    (h : ∀ i ∈ sampledIndices f1.data.length, differsAt f1.data f2.data i = true) :
    compareFrames f1 f2 = true ∧
      changedRatio f1 f2 = .num ((sampleCount f1 : ℚ) / ((f1.data.length : ℚ) / 40)) ∧
      (f1.data.length % 40 = 0 → changedRatio f1 f2 = .num 1) := by
  have hpos : 0 < f1.data.length := List.length_pos.mpr hne
  have hd := diffCount_of_all_differ f1 f2 h
  have hs : sampleCount f1 = (f1.data.length + 39) / 40 := length_sampledIndices _
  refine ⟨?_, ?_, ?_⟩
  · rw [compareFrames_iff, hd]; omega
  · rw [changedRatio_of_pos f1 f2 hpos, hd]
  · intro h40
    rw [changedRatio_of_pos f1 f2 hpos, hd]
    have hq : (0 : ℚ) < (f1.data.length : ℚ) := by exact_mod_cast hpos
    have hlen : f1.data.length = 40 * sampleCount f1 := by omega
    have hlenq : (f1.data.length : ℚ) = 40 * (sampleCount f1 : ℚ) := by exact_mod_cast hlen
    congr 1
    rw [hlenq] at hq ⊢
    have hsq : (sampleCount f1 : ℚ) ≠ 0 := by
      intro h0
      rw [h0] at hq
      simp at hq
    field_simp

/-- C3: on the 1 x 1 frames `pixelRed` and `pixelBlack` the only sampled byte
(index 0) differs by 100; `compareFrames` returns `true`, but the ratio it
computes is `1 / (4 / 40) = 10`, not 1. -/
theorem changedRatio_ten_on_pixel :
    pixelRed.WellFormed ∧ pixelBlack.WellFormed ∧
      (pixelRed.width, pixelRed.height) = (pixelBlack.width, pixelBlack.height) ∧
      (∀ i ∈ sampledIndices pixelRed.data.length,
        differsAt pixelRed.data pixelBlack.data i = true) ∧
      compareFrames pixelRed pixelBlack = true ∧
      changedRatio pixelRed pixelBlack = .num 10 ∧
      changedRatio pixelRed pixelBlack ≠ .num 1 := by
  have hall : ∀ i ∈ sampledIndices pixelRed.data.length,
      differsAt pixelRed.data pixelBlack.data i = true := by decide
  have hr : changedRatio pixelRed pixelBlack = .num 10 := by
    rw [(compareFrames_of_all_differ pixelRed pixelBlack (by decide) hall).2.1]
    have : sampleCount pixelRed = 1 := by decide
    rw [this]
    simp [pixelRed]; norm_num
  refine ⟨by decide, by decide, rfl, hall,
    (compareFrames_of_all_differ pixelRed pixelBlack (by decide) hall).1, hr, ?_⟩
  rw [hr]
  intro h
  injection h with h
  norm_num at h

theorem getElem?_whiteShift (f : Frame) (i : Nat) :
    (whiteShift f).data[i]? =
      (f.data[i]?).map (fun b => if i % 40 = 0 then min (b + 100) 255 else b) := by
  simp only [whiteShift, List.getElem?_map, List.getElem?_enum, Option.map_map]
  rfl

theorem length_whiteShift (f : Frame) : (whiteShift f).data.length = f.data.length := by
  simp [whiteShift]

/-- C4 (counterexample): the shifted variant of an all-white 1 x 1 frame is
the frame itself (255 + 100 clips to 255), and `compareFrames` returns
`false` on the pair. -/
theorem compareFrames_whiteShift_white :
    pixelWhite.WellFormed ∧ whiteShift pixelWhite = pixelWhite ∧
      compareFrames (whiteShift pixelWhite) pixelWhite = false := by
  have h : whiteShift pixelWhite = pixelWhite := by decide
  refine ⟨by decide, h, ?_⟩
  rw [h, compareFrames_eq_false_iff, diffCount_self]
  omega

theorem differsAt_whiteShift (f : Frame) (hbytes : ∀ b ∈ f.data, b ≤ 255) (i : Nat)
    (hmod : i % 40 = 0) :
    differsAt (whiteShift f).data f.data i = shiftableAt f.data i := by
  unfold differsAt shiftableAt
  rw [getElem?_whiteShift]
  cases hb : f.data[i]? with
  | none => simp [exceedsThreshold]
  | some b =>
    have hle : b ≤ 255 := hbytes b (List.getElem?_mem hb)
    simp only [Option.map_some', hmod, if_true, exceedsThreshold, MOTION_THRESHOLD]
    rw [Bool.eq_iff_iff]
    simp only [decide_eq_true_eq]
    omega

/-- C4 (amended): for a frame with bytes in `0..255` and its variant with
every sampled byte set to `min (byte + 100) 255`, the sampled positions that
differ by more than 30 are exactly those whose byte is at most 224;
`compareFrames` returns `true` on the pair whenever more than 2% of the
sampled bytes are at most 224, and, when the buffer length is a multiple of
40, only then. -/
theorem compareFrames_whiteShift (f : Frame) (hbytes : ∀ b ∈ f.data, b ≤ 255) :
    diffCount (whiteShift f) f = shiftableCount f ∧
      (sampleCount f < 50 * shiftableCount f → compareFrames (whiteShift f) f = true) ∧
      (f.data.length % 40 = 0 →
        (compareFrames (whiteShift f) f = true ↔ sampleCount f < 50 * shiftableCount f)) := by
  have hd : diffCount (whiteShift f) f = shiftableCount f := by
    rw [diffCount_eq_countP, shiftableCount, length_whiteShift]
    apply List.countP_congr
    intro i hi
    rw [differsAt_whiteShift f hbytes i (mem_sampledIndices.mp hi).2]
  have hs : sampleCount f = (f.data.length + 39) / 40 := length_sampledIndices _
  refine ⟨hd, ?_, ?_⟩
  · intro h
    rw [compareFrames_iff, hd, length_whiteShift]
    omega
  · intro h40
    rw [compareFrames_iff, hd, length_whiteShift]
    omega

theorem compareFrames_whiteShift_witness :
    (∀ b ∈ frameHalfWhite.data, b ≤ 255) ∧ frameHalfWhite.data[0]? = some 255 ∧
      sampleCount frameHalfWhite = 2 ∧ shiftableCount frameHalfWhite = 1 ∧
      compareFrames (whiteShift frameHalfWhite) frameHalfWhite = true :=
  have hb : ∀ b ∈ frameHalfWhite.data, b ≤ 255 := by decide
  have hs : sampleCount frameHalfWhite = 2 := by decide
  have hc : shiftableCount frameHalfWhite = 1 := by decide
  ⟨hb, rfl, hs, hc, (compareFrames_whiteShift frameHalfWhite hb).2.1 (by rw [hs, hc]; decide)⟩

/-! ### The recording life cycle -/

theorem compareFrames_pixelRed_pixelBlack : compareFrames pixelRed pixelBlack = true := by
  rw [compareFrames_iff]; decide

theorem compareFrames_pixelBlack_pixelRed : compareFrames pixelBlack pixelRed = true := by
  rw [compareFrames_iff]; decide

theorem clearTimer_clearTimer (id : Option Nat) (timers : List Timer) :
    clearTimer id (clearTimer id timers) = clearTimer id timers := by
  cases id with
  | none => rfl
  | some i => simp [clearTimer, List.filter_filter]

theorem mem_clearTimer {i : Nat} {timers : List Timer} {t : Timer}
    (h : t ∈ clearTimer (some i) timers) : t ∈ timers ∧ t.id ≠ i := by
  simpa [clearTimer, List.mem_filter] using h

theorem timers_stopRecording (s : State) :
    (stopRecording s).timers = clearTimer s.recordingInterval s.timers := by
  unfold stopRecording
  cases s.mediaRecorder <;> rfl

/-- What one call of `stopRecording` does when a recorder exists: the flag is
cleared, the interval is disarmed, the recorder is asked to stop and the
status is set. -/
theorem stopRecording_of_recorder (s : State) (r : Nat) (h : s.mediaRecorder = some r) :
    stopRecording s =
      { s with isRecording := false,
               timers := clearTimer s.recordingInterval s.timers,
               stopRequests := s.stopRequests ++ [r],
               statusText := "Uploading video...",
               statusRecording := false } := by
  simp [stopRecording, updateStatus, h]

/-- Data events append their non-empty segments to `recordedChunks`, in
order. -/
theorem recordedChunks_run_dataAvailable (segments : List Chunk) (s : State) :
    (run s (segments.map Event.dataAvailable)).recordedChunks =
      s.recordedChunks ++ segments.filter (fun c => decide (0 < c.length)) := by
  induction segments generalizing s with
  | nil => simp [run]
  | cons c cs ih =>
    have hrun : run s ((c :: cs).map Event.dataAvailable) =
        run (ondataavailable s c) (cs.map Event.dataAvailable) := rfl
    rw [hrun, ih]
    by_cases hc : 0 < c.length
    · simp [ondataavailable, hc, List.filter_cons]
    · simp [ondataavailable, hc, List.filter_cons]

theorem flatten_filter_nonempty (segments : List Chunk) :
    (segments.filter (fun c => decide (0 < c.length))).flatten = segments.flatten := by
  induction segments with
  | nil => rfl
  | cons c cs ih =>
    by_cases hc : 0 < c.length
    · simp [List.filter_cons, hc, ih]
    · have : c = [] := by
        cases c with
        | nil => rfl
        | cons a l => simp at hc
      simp [List.filter_cons, this, ih]

/-- When nothing but data events happens between `startRecording` and the
recorder's `stop` event, the upload packs exactly the non-empty segments, in
emission order. -/
theorem upload_of_uninterrupted_session (s : State) (now : Nat) (segments : List Chunk)
    (isoTime : String) :
    (uploadRecording (run (startRecording s now) (segments.map Event.dataAvailable))
        isoTime).uploads.getLast?.map Upload.parts =
      some (segments.filter (fun c => decide (0 < c.length))) := by
  have h := recordedChunks_run_dataAvailable segments (startRecording s now)
  have h0 : (startRecording s now).recordedChunks = [] := rfl
  rw [h0, List.nil_append] at h
  simp [uploadRecording, h]

/-! ### The invariant of deliverable runs -/

theorem sessionInv_monitoring (url : String) : SessionInv (State.monitoring url) := by
  simp [SessionInv, State.monitoring, State.initial, updateStatus]

theorem sessionInv_startRecording (s : State) (now : Nat) (h : SessionInv s)
    (hrec : s.isRecording = false) : SessionInv (startRecording s now) := by
  obtain ⟨h1, _, h3⟩ := h
  obtain ⟨hc, ht⟩ := h3 hrec
  refine ⟨h1, ?_, ?_⟩
  · intro _
    refine ⟨by simp [startRecording, updateStatus, hc], by simp [startRecording, updateStatus, hc],
      s.nextTimerId, s.nextTimerId + 1, by omega, rfl, ?_⟩
    simp [startRecording, updateStatus, ht]
  · intro hfalse
    simp [startRecording, updateStatus] at hfalse

theorem sessionInv_detectMotion (s : State) (currentFrame : Frame) (now : Nat)
    (h : SessionInv s) : SessionInv (detectMotion s currentFrame now) := by
  have hframe : ∀ t : State, SessionInv t →
      SessionInv { (if t.isRecording then { t with overlayCalls := t.overlayCalls + 1 } else t)
        with lastFrame := some currentFrame } := by
    intro t ht
    cases hr : t.isRecording <;> simpa [SessionInv, hr] using ht
  have hcount : SessionInv { s with compareCalls := s.compareCalls + 1 } := h
  unfold detectMotion
  cases hm : s.isMonitoring
  · simpa using h
  · cases hl : s.lastFrame with
    | none => simpa using hframe s h
    | some lastFrame =>
      cases hr : s.isRecording
      · cases hc : compareFrames currentFrame lastFrame
        · simpa [hr, hc] using hframe _ hcount
        · simpa [hr, hc] using
            hframe _ (sessionInv_startRecording _ now hcount hr)
      · simpa [hr] using hframe s h

theorem sessionInv_timeoutFired (s : State) (id : Nat) (h : SessionInv s)
    (hen : Event.enabled s (.timeoutFired id) = true) :
    s.isRecording = true ∧ (step s (.timeoutFired id)).timers = [] ∧
      (step s (.timeoutFired id)).isRecording = false ∧
      (step s (.timeoutFired id)).stopRequests = s.stopRequests ++ [s.stopRequests.length] ∧
      SessionInv (step s (.timeoutFired id)) := by
  obtain ⟨h1, h2, h3⟩ := h
  have hrec : s.isRecording = true := by
    cases hr : s.isRecording
    · have := (h3 hr).2
      simp [Event.enabled, this] at hen
    · rfl
  obtain ⟨hc, hmr, iv, tm, hne, hiv, ht⟩ := h2 hrec
  have hid : id = tm := by
    simp [Event.enabled, ht] at hen
    exact hen.symm
  subst hid
  have hne2 : id ≠ iv := fun e => hne e.symm
  have hstep : step s (.timeoutFired id) =
      updateStatus { s with isRecording := false, timers := [],
                            stopRequests := s.stopRequests ++ [s.stopRequests.length] }
        "Uploading video..." false := by
    simp [step, stopRecording, clearTimer, hmr, hiv, ht, hne, hne2]
  refine ⟨hrec, by rw [hstep]; rfl, by rw [hstep]; rfl, by rw [hstep]; rfl, ?_⟩
  rw [hstep]
  refine ⟨?_, ?_, ?_⟩
  · show s.stopRequests ++ [s.stopRequests.length] =
      List.range (s.stopRequests ++ [s.stopRequests.length]).length
    rw [List.length_append, List.length_singleton, List.range_succ, ← h1]
  · intro hfalse
    simp [updateStatus] at hfalse
  · intro _
    simp [updateStatus, hc]

theorem sessionInv_step (s : State) (e : Event) (h : SessionInv s)
    (hen : Event.enabled s e = true) : SessionInv (step s e) := by
  cases e with
  | frameTick currentFrame now => exact sessionInv_detectMotion s currentFrame now h
  | dataAvailable data =>
    show SessionInv (ondataavailable s data)
    unfold ondataavailable
    split_ifs
    · exact h
    · exact h
  | recorderStopped isoTime => exact h
  | timeoutFired id => exact (sessionInv_timeoutFired s id h hen).2.2.2.2
  | fetchSettled outcome =>
    show SessionInv (uploadSettled s outcome)
    cases outcome <;> exact h

theorem sessionInv_run (s : State) (events : List Event) (h : SessionInv s)
    (hd : deliverable s events = true) : SessionInv (run s events) := by
  induction events generalizing s with
  | nil => exact h
  | cons e es ih =>
    simp only [deliverable, Bool.and_eq_true] at hd
    exact ih (step s e) (sessionInv_step s e h hd.1) hd.2

/-- On every deliverable run the recorders are asked to stop in the order of
their creation and none of them twice: `stopRecording` is never called for a
session that has already been stopped. -/
theorem stopRequests_of_deliverable (url : String) (events : List Event)
    (hd : deliverable (State.monitoring url) events = true) :
    (run (State.monitoring url) events).stopRequests =
        List.range (run (State.monitoring url) events).stopRequests.length ∧
      (run (State.monitoring url) events).stopRequests.Nodup := by
  have h := (sessionInv_run _ events (sessionInv_monitoring url) hd).1
  refine ⟨h, ?_⟩
  rw [h]
  exact List.nodup_range _

theorem sessionState_eq :
    sessionState =
      { startRecording { State.monitoring "pc:8000" with
            lastFrame := some pixelBlack, compareCalls := 1 } 16 with
        overlayCalls := 1, lastFrame := some pixelRed, recordedChunks := [[1, 2]] } := by
  simp [sessionState, sessionRun, run, step, detectMotion, State.monitoring, State.initial,
    updateStatus, startRecording, compareFrames_pixelRed_pixelBlack, ondataavailable]

theorem deliverable_sessionRun :
    deliverable (State.monitoring "pc:8000") sessionRun = true := by
  simp [sessionRun, deliverable, Event.enabled, step, detectMotion, State.monitoring,
    State.initial, updateStatus, startRecording, compareFrames_pixelRed_pixelBlack]

/-! ### Claims about the recording life cycle -/

/-- C6: on every deliverable run, while a recording is active exactly the two
timers armed by `startRecording` are armed (the 1-second interval and the
one-shot 300000 ms timer); `stopRecording` runs only as the callback of that
one-shot timer, and after it neither timer is armed and `isRecording` is
false; while no recording is active no timer is armed, so no stop attempt can
fire from a stopped session. -/
theorem timers_after_stopRecording (url : String) (events : List Event)
    (hd : deliverable (State.monitoring url) events = true) :
    ((run (State.monitoring url) events).isRecording = true →
      (∃ iv tm, iv ≠ tm ∧
        (run (State.monitoring url) events).recordingInterval = some iv ∧
        (run (State.monitoring url) events).timers =
          [Timer.mk iv .interval 1000, Timer.mk tm .timeout 300000]) ∧
      ∀ id, Event.enabled (run (State.monitoring url) events) (.timeoutFired id) = true →
        step (run (State.monitoring url) events) (.timeoutFired id) =
          stopRecording { run (State.monitoring url) events with
            timers := clearTimer (some id) (run (State.monitoring url) events).timers } ∧
        (step (run (State.monitoring url) events) (.timeoutFired id)).timers = [] ∧
        (step (run (State.monitoring url) events) (.timeoutFired id)).isRecording = false) ∧
    ((run (State.monitoring url) events).isRecording = false →
      (run (State.monitoring url) events).timers = [] ∧
      ∀ id, Event.enabled (run (State.monitoring url) events) (.timeoutFired id) = false) := by
  have hinv := sessionInv_run _ events (sessionInv_monitoring url) hd
  constructor
  · intro hrec
    obtain ⟨_, _, iv, tm, hne, hiv, ht⟩ := hinv.2.1 hrec
    refine ⟨⟨iv, tm, hne, hiv, ht⟩, ?_⟩
    intro id hen
    have h := sessionInv_timeoutFired _ id hinv hen
    exact ⟨rfl, h.2.1, h.2.2.1⟩
  · intro hrec
    have ht := (hinv.2.2 hrec).2
    refine ⟨ht, ?_⟩
    intro id
    simp [Event.enabled, ht]

theorem timers_after_stopRecording_witness :
    deliverable (State.monitoring "pc:8000") sessionRun = true ∧
      (run (State.monitoring "pc:8000") sessionRun).isRecording = true ∧
      (run (State.monitoring "pc:8000") sessionRun).timers =
        [Timer.mk 0 .interval 1000, Timer.mk 1 .timeout 300000] ∧
      (step (run (State.monitoring "pc:8000") sessionRun) (.timeoutFired 1)).timers = [] ∧
      (step (run (State.monitoring "pc:8000") sessionRun) (.timeoutFired 1)).isRecording =
        false := by
  have hs : run (State.monitoring "pc:8000") sessionRun = sessionState := rfl
  have hrec : (run (State.monitoring "pc:8000") sessionRun).isRecording = true := by
    rw [hs, sessionState_eq]; rfl
  have ht : (run (State.monitoring "pc:8000") sessionRun).timers =
      [Timer.mk 0 .interval 1000, Timer.mk 1 .timeout 300000] := by
    rw [hs, sessionState_eq]; rfl
  have hen : Event.enabled (run (State.monitoring "pc:8000") sessionRun)
      (.timeoutFired 1) = true := by
    simp [Event.enabled, ht]
  have h := ((timers_after_stopRecording "pc:8000" sessionRun deliverable_sessionRun).1
    hrec).2 1 hen
  exact ⟨deliverable_sessionRun, hrec, ht, h.2.1, h.2.2⟩

/-- C7: in `restartRun` recorder 0 emits the segments `[1, 2]` and `[3]`
between its `startRecording` and its `stop` event, but a tick after
`stopRecording` has started recording 1 and emptied `recordedChunks`: the
first upload packs `[3]` only.  Recorder 1 emits `[4]` only, but `[3]` is
still in the accumulator: the second upload packs `[3]` and `[4]`. -/
theorem upload_drops_chunks_after_restart :
    (run (State.monitoring "pc:8000") restartRun).uploads =
        [Upload.mk "http://pc:8000/upload" "recording_2024-05-01T10-05-00.000Z.webm" [[3]],
          Upload.mk "http://pc:8000/upload" "recording_2024-05-01T10-10-00.032Z.webm"
            [[3], [4]]] ∧
      (run (State.monitoring "pc:8000") restartRun).stopRequests = [0, 1] := by
  simp [run, restartRun, step, detectMotion, State.monitoring, State.initial, updateStatus,
    startRecording, compareFrames_pixelRed_pixelBlack, compareFrames_pixelBlack_pixelRed,
    ondataavailable, stopRecording, clearTimer, uploadRecording]
  decide

/-- C8: a tick taken while `isRecording` is true calls neither
`compareFrames` nor `startRecording` and leaves the chunk accumulator, the
start time, the recorder, the timers and the flag as they were; a tick taken
while monitoring stores the captured frame in `lastFrame`; and on every
deliverable run the recorders created and not yet asked to stop number one
while `isRecording` is true and none otherwise, so at most one recording
session is active at a time. -/
theorem detectMotion_while_recording (s : State) (currentFrame : Frame) (now : Nat) :
    (s.isRecording = true →
      (detectMotion s currentFrame now).compareCalls = s.compareCalls ∧
      (detectMotion s currentFrame now).recordersCreated = s.recordersCreated ∧
      (detectMotion s currentFrame now).recordedChunks = s.recordedChunks ∧
      (detectMotion s currentFrame now).recordingStartTime = s.recordingStartTime ∧
      (detectMotion s currentFrame now).mediaRecorder = s.mediaRecorder ∧
      (detectMotion s currentFrame now).timers = s.timers ∧
      (detectMotion s currentFrame now).recordingInterval = s.recordingInterval ∧
      (detectMotion s currentFrame now).isRecording = true) ∧
    (s.isMonitoring = true →
      (detectMotion s currentFrame now).lastFrame = some currentFrame) ∧
    (∀ url events, deliverable (State.monitoring url) events = true →
      (run (State.monitoring url) events).recordersCreated =
        (run (State.monitoring url) events).stopRequests.length +
          (if (run (State.monitoring url) events).isRecording then 1 else 0)) := by
  refine ⟨?_, ?_, ?_⟩
  · intro hrec
    unfold detectMotion
    cases hm : s.isMonitoring <;> cases hl : s.lastFrame <;> simp [hrec]
  · intro hmon
    unfold detectMotion
    simp [hmon]
  · intro url events hd
    have hinv := sessionInv_run _ events (sessionInv_monitoring url) hd
    cases hr : (run (State.monitoring url) events).isRecording
    · simpa using (hinv.2.2 hr).1
    · simpa using (hinv.2.1 hr).1

theorem detectMotion_while_recording_witness :
    sessionState.isRecording = true ∧ sessionState.isMonitoring = true ∧
      sessionState.lastFrame = some pixelRed ∧
      compareFrames pixelBlack pixelRed = true ∧
      (detectMotion sessionState pixelBlack 5000).compareCalls = 1 ∧
      (detectMotion sessionState pixelBlack 5000).recordersCreated = 1 ∧
      (detectMotion sessionState pixelBlack 5000).recordedChunks = [[1, 2]] ∧
      (detectMotion sessionState pixelBlack 5000).recordingStartTime = some 16 ∧
      (detectMotion sessionState pixelBlack 5000).mediaRecorder = some 0 ∧
      (detectMotion sessionState pixelBlack 5000).timers =
        [Timer.mk 0 .interval 1000, Timer.mk 1 .timeout 300000] ∧
      (detectMotion sessionState pixelBlack 5000).isRecording = true ∧
      (detectMotion sessionState pixelBlack 5000).lastFrame = some pixelBlack ∧
      (run (State.monitoring "pc:8000") sessionRun).recordersCreated =
        (run (State.monitoring "pc:8000") sessionRun).stopRequests.length +
          (if (run (State.monitoring "pc:8000") sessionRun).isRecording then 1 else 0) := by
  have hrec : sessionState.isRecording = true := by rw [sessionState_eq]; rfl
  have hmon : sessionState.isMonitoring = true := by rw [sessionState_eq]; rfl
  have h := detectMotion_while_recording sessionState pixelBlack 5000
  obtain ⟨h1, h2, h3, h4, h5, h6, _, h8⟩ := h.1 hrec
  refine ⟨hrec, hmon, by rw [sessionState_eq], compareFrames_pixelBlack_pixelRed,
    ?_, ?_, ?_, ?_, ?_, ?_, h8, h.2.1 hmon, h.2.2 "pc:8000" sessionRun deliverable_sessionRun⟩
  · rw [h1, sessionState_eq]; rfl
  · rw [h2, sessionState_eq]; rfl
  · rw [h3, sessionState_eq]
  · rw [h4, sessionState_eq]; rfl
  · rw [h5, sessionState_eq]; rfl
  · rw [h6, sessionState_eq]; rfl

/-- C9: in `uploadingState` `stopRecording` has run and the recorder's `stop`
event has not: the status is "Uploading video...", the accumulator holds
`[7, 7, 7]` and nothing has been uploaded.  A tick taken there calls
`compareFrames` and starts recording 1, which empties `recordedChunks`; the
`stop` event of recorder 0 then uploads an empty chunk list. -/
theorem detectMotion_runs_while_uploading :
    uploadingState.statusText = "Uploading video..." ∧
      uploadingState.stopRequests = [0] ∧
      uploadingState.recordedChunks = [[7, 7, 7]] ∧
      uploadingState.uploads = [] ∧
      (step uploadingState (.frameTick pixelBlack 300032)).compareCalls =
        uploadingState.compareCalls + 1 ∧
      (step uploadingState (.frameTick pixelBlack 300032)).recordersCreated =
        uploadingState.recordersCreated + 1 ∧
      (step uploadingState (.frameTick pixelBlack 300032)).recordedChunks = [] ∧
      (run uploadingState [.frameTick pixelBlack 300032,
          .recorderStopped "2024-05-01T10:05:00.000Z"]).uploads.map Upload.parts = [[]] := by
  simp [uploadingState, run, step, detectMotion, State.monitoring, State.initial, updateStatus,
    startRecording, compareFrames_pixelRed_pixelBlack, compareFrames_pixelBlack_pixelRed,
    ondataavailable, stopRecording, clearTimer, uploadRecording]

/-! ### The artifact name -/

theorem data_uploadName (t : String) :
    (uploadName t).data =
      "recording_".data ++ t.data.map (fun c => if c = ':' then '-' else c) ++ ".webm".data := by
  simp [uploadName, replaceColons, String.data_append]

/-- Mapping the middle part of a list changes an entry only inside the middle
part, and only where the map changes the character. -/
theorem getElem?_map_middle (p t q : List Char) (f : Char → Char) (i : Nat)
    (hi : (p ++ t.map f ++ q)[i]? ≠ (p ++ t ++ q)[i]?) :
    p.length ≤ i ∧ ∃ c, t[i - p.length]? = some c ∧ f c ≠ c ∧
      (p ++ t.map f ++ q)[i]? = some (f c) := by
  simp only [List.append_assoc] at hi ⊢
  rcases Nat.lt_or_ge i p.length with hlt | hge
  · exfalso
    apply hi
    rw [List.getElem?_append_left hlt, List.getElem?_append_left hlt]
  · refine ⟨hge, ?_⟩
    rw [List.getElem?_append_right hge, List.getElem?_append_right hge] at hi
    rw [List.getElem?_append_right hge]
    rcases Nat.lt_or_ge (i - p.length) t.length with hlt | hge2
    · have hlt2 : i - p.length < (t.map f).length := by simpa using hlt
      rw [List.getElem?_append_left hlt2, List.getElem?_append_left hlt,
        List.getElem?_map, List.getElem?_eq_getElem hlt] at hi
      rw [List.getElem?_append_left hlt2, List.getElem?_map, List.getElem?_eq_getElem hlt]
      refine ⟨t[i - p.length], rfl, ?_, rfl⟩
      intro heq
      apply hi
      simp [heq]
    · exfalso
      apply hi
      have hge3 : (t.map f).length ≤ i - p.length := by simpa using hge2
      rw [List.getElem?_append_right hge3, List.getElem?_append_right hge2]
      simp

/-- C10: the name built by `uploadRecording` is "recording_", then the
timestamp with every ':' replaced by '-', then ".webm"; it contains no ':',
has the length of the name built from the unchanged timestamp, and differs
from that name only where the timestamp has ':'. -/
theorem uploadName_spec (t : String) (s : State) :
    (uploadRecording s t).uploads.getLast?.map Upload.name = some (uploadName t) ∧
      (uploadName t).data =
        "recording_".data ++ t.data.map (fun c => if c = ':' then '-' else c) ++
          ".webm".data ∧
      ':' ∉ (uploadName t).data ∧
      (uploadName t).length = ("recording_" ++ t ++ ".webm").length ∧
      ∀ i, (uploadName t).data[i]? ≠ ("recording_" ++ t ++ ".webm").data[i]? →
        10 ≤ i ∧ t.data[i - 10]? = some ':' ∧ (uploadName t).data[i]? = some '-' := by
  refine ⟨by simp [uploadRecording], data_uploadName t, ?_, ?_, ?_⟩
  · rw [data_uploadName]
    simp only [List.mem_append, List.mem_map, not_or, not_exists, not_and]
    refine ⟨⟨by decide, ?_⟩, by decide⟩
    intro c _ hc
    split_ifs at hc with h
    · exact absurd hc (by decide)
    · exact h hc
  · have h1 : (uploadName t).length = (uploadName t).data.length := rfl
    have h2 : ("recording_" ++ t ++ ".webm").length =
        ("recording_" ++ t ++ ".webm").data.length := rfl
    rw [h1, h2, data_uploadName, String.data_append, String.data_append]
    simp only [List.length_append, List.length_map]
  · intro i hi
    rw [data_uploadName] at hi ⊢
    rw [String.data_append, String.data_append] at hi
    obtain ⟨h10, c, hc, hne, hget⟩ := getElem?_map_middle _ _ _ _ i hi
    have hp : "recording_".data.length = 10 := by decide
    rw [hp] at h10 hc
    have hcolon : c = ':' := by
      by_contra hcc
      exact hne (by simp [hcc])
    subst hcolon
    exact ⟨h10, hc, by rw [hget]; rfl⟩

end Monitor
